import Mathlib

/-!
Verification of the accessibility-auditor browser extension.

Shallow embedding of the repository's own logic: the result normalizers and
impact filters of the two injected scanner scripts (src/unnamed/part_002 and
src/unnamed/part_003), the engine-configuration builders of all three scanner
versions (src/unnamed/part_001, part_002, part_003), the SARIF and HTML
reporters (src/unnamed/part_000), and the popup's scan orchestration
(src/background/service-worker.js, runScan).

Modelling conventions, applied throughout:
* JavaScript arrays are Lean lists; a possibly-absent array field `xs` read as
  `xs || []` or `xs?.length || 0` is `Option (List _)` read through `jsList`.
* Possibly-absent strings (`null`/`undefined`) are `Option String`; the
  template-literal coercion of `undefined` is `jsShow`.
* JavaScript number arithmetic on integer counts (array lengths and their
  sums, exactly representable) is exact; where a quotient appears, the
  division and the subsequent multiplication are modelled as IEEE-754
  binary64 correctly-rounded operations (`flRat`, `flMul100`), `Math.round`
  is the nearest integer (ties toward +∞) of the exact value of the
  resulting double, and `Math.round(NaN) || 0` at a zero denominator is 0.
* A plain object used as a string-keyed tally or cache is an association list
  with distinct keys; prototype-chain artifacts of JavaScript property lookup
  are outside the model.
-/

namespace A11y

/-- A node entry of an axe rule outcome (html snippet, CSS selector targets,
optional failure summary, optional element handle). -/
structure AxeNode where
  html : String
  target : List String
  failureSummary : Option String
  element : Option String
deriving DecidableEq, Repr

/-- A rule outcome as produced by the axe engine (an entry of `violations`,
`passes`, `incomplete` or `inapplicable`). -/
structure AxeRule where
  id : String
  impact : Option String
  help : String
  description : Option String
  helpUrl : String
  tags : Option (List String)
  nodes : List AxeNode
deriving DecidableEq, Repr

/-- The raw result object returned by `axe.run`: four outcome sequences, each
of which defensive call sites read through `|| []`. -/
structure RawEngineResult where
  violations : Option (List AxeRule)
  passes : Option (List AxeRule)
  incomplete : Option (List AxeRule)
  inapplicable : Option (List AxeRule)
deriving DecidableEq, Repr

/-- `xs || []` on a possibly-absent array. -/
def jsList (o : Option (List α)) : List α := o.getD []

/-- `xs?.length || 0` on a possibly-absent array (equal to the length of
`jsList` since `0 || 0` is `0`). -/
def jsLen (o : Option (List α)) : Nat := (jsList o).length

/-- `x || ''` on a possibly-absent string. -/
def jsOrEmpty (o : Option String) : String := o.getD ""

/-- Template-literal coercion of a possibly-absent string: `undefined` prints
as the text `undefined`. -/
def jsShow (o : Option String) : String := o.getD "undefined"

/-- Data-level model of `String.prototype.toLowerCase` (ASCII lowering is all
the impact strings need). -/
def jsToLowerCase (s : String) : String := String.mk (s.data.map Char.toLower)

/-- The initial severity tally object of `normalizeResults`
(part_002 line 89 and part_003 line 85): the four named buckets at zero. -/
def severityBuckets0 : List (String × Nat) :=
  [("critical", 0), ("serious", 0), ("moderate", 0), ("minor", 0)]

/-- One iteration of the severity-tally loop (part_002 lines 96-105,
part_003 lines 92-101, and the identical recount inside `filterByImpact`):
`severity = violation.impact?.toLowerCase()`; an existing bucket
(`hasOwnProperty`) is incremented, otherwise a truthy severity opens a new
bucket at 1, and a null/undefined or empty severity is not counted. -/
def bumpSeverity (acc : List (String × Nat)) (impact : Option String) :
    List (String × Nat) :=
  match impact with
  | none => acc
  | some s =>
    let sev := jsToLowerCase s
    if acc.any (fun p => p.1 == sev) then
      acc.map (fun p => if p.1 == sev then (p.1, p.2 + 1) else p)
    else if sev ≠ "" then acc ++ [(sev, 1)]
    else acc

/-- The severity tally over a sequence of impact fields. -/
def severityCountsOf (impacts : List (Option String)) : List (String × Nat) :=
  impacts.foldl bumpSeverity severityBuckets0

/-- Sum of all entries of a severity tally. -/
def tallySum (l : List (String × Nat)) : Nat := (l.map (·.2)).sum

/-- Round N/D (D > 0) to the nearest integer, ties to even. -/
def roundHalfEvenDiv (N D : Nat) : Nat :=
  let q := N / D
  let r := N % D
  if 2 * r < D then q
  else if D < 2 * r then q + 1
  else if q % 2 = 0 then q else q + 1

/-- Floor of log2 by fueled halving (structural recursion, so the kernel can
evaluate it; core `Nat.log2` uses well-founded recursion and cannot). -/
def log2Fuel : Nat → Nat → Nat
  | 0, _ => 0
  | fuel + 1, n => if n < 2 then 0 else log2Fuel fuel (n / 2) + 1

/-- Floor of log2 n for n ≥ 1: exact for every n < 2^4400, far beyond any
JavaScript quantity (doubles stay below 2^1024), the only range the callers
feed it. -/
def log2floor (n : Nat) : Nat := log2Fuel 4400 n

/-- Floor of log2 (a/b) for a, b ≥ 1: the bit-length estimate is off by at
most one and is corrected by a single comparison. -/
def ratLog2Floor (a b : Nat) : Int :=
  let e : Int := (log2floor a : Int) - (log2floor b : Int)
  if 0 ≤ e then (if b * 2 ^ e.toNat ≤ a then e else e - 1)
  else (if b ≤ a * 2 ^ (-e).toNat then e else e - 1)

/-- A nonnegative finite IEEE-754 binary64 value, carried exactly as
num·2^exp (after rounding, num < 2^53 for normal values, with the exponent
clamped at the subnormal boundary). -/
structure F64 where
  num : Nat
  exp : Int
deriving DecidableEq, Repr

/-- Correctly round the nonnegative rational a/b (b > 0) to binary64:
round to nearest, ties to even, on the grid 2^(max(e,-1022)-52) where e is
the floor of log2 of the quotient; `none` is overflow to Infinity
(unreachable for the quotients of at most 1 arising in `normalizeResults`).
-/
def flRat (a b : Nat) : Option F64 :=
  if a = 0 then some { num := 0, exp := 0 }
  else
    let e := ratLog2Floor a b
    let es : Int := max e (-1022)
    let shift : Int := 52 - es
    let n := if 0 ≤ shift then roundHalfEvenDiv (a * 2 ^ shift.toNat) b
             else roundHalfEvenDiv a (b * 2 ^ (-shift).toNat)
    if 1023 < es ∨ (es = 1023 ∧ 2 ^ 53 ≤ n) then none
    else some { num := n, exp := es - 52 }

/-- The JavaScript multiplication `d * 100`: the exact product re-rounded to
binary64 (IEEE multiplication is correctly rounded). -/
def flMul100 (v : F64) : Option F64 :=
  if 0 ≤ v.exp then flRat (v.num * 100 * 2 ^ v.exp.toNat) 1
  else flRat (v.num * 100) (2 ^ (-v.exp).toNat)

/-- `Math.round` on a nonnegative double: the nearest integer to the exact
value of the double, ties toward +∞ (the ECMAScript definition works on the
mathematical value, not via adding 0.5 in floating point). -/
def mathRoundF64 (v : F64) : Nat :=
  if 0 ≤ v.exp then v.num * 2 ^ v.exp.toNat
  else (2 * v.num + 2 ^ (-v.exp).toNat) / (2 * 2 ^ (-v.exp).toNat)

/-- `Math.round((testsPassed / totalTestsRun) * 100) || 0`
(part_002 line 156): 0 at a zero denominator (the NaN of 0/0 is collapsed by
`|| 0`); otherwise the quotient and the product are computed in binary64 and
`Math.round` takes the nearest integer of the result. The double rounding is
observable: 23 passes of 40 total gives 57 where exact rounding of
100·23/40 = 57.5 would give 58. Overflow to Infinity is unreachable here
(`testsPassed ≤ totalTestsRun` bounds the quotient by 1) and is mapped to 0.
-/
def jsCoverage (testsPassed totalTestsRun : Nat) : Nat :=
  if totalTestsRun = 0 then 0
  else
    match flRat testsPassed totalTestsRun with
    | none => 0
    | some d =>
      match flMul100 d with
      | none => 0
      | some d2 => mathRoundF64 d2

/-- The caller-supplied context object handed to `normalizeResults`
(requested impacts and tags). -/
structure ScanContext where
  impacts : Option (List String)
  tags : Option (List String)
deriving DecidableEq, Repr

/-- Ambient page values read by the scanner scripts
(`window.location.href`, `new Date().toISOString()`, `axe.version`, and the
tag set reported by `axe.getRules`). Passed explicitly to keep the
normalizers pure. -/
structure NormEnv where
  url : String
  timestamp : String
  axeVersion : String
  availableTags : List String
deriving DecidableEq, Repr

/-- A normalized node: part_002/part_003 copy `html`, `target`,
`failureSummary` and `element || null` for violation and incomplete nodes,
and only `html`/`target` for pass nodes (the absent fields are `none` here).
-/
structure NormalizedNode where
  html : String
  target : List String
  failureSummary : Option String
  element : Option String
deriving DecidableEq, Repr

/-- A normalized rule outcome. The presentation-only derived annotations of
the source (`wcagCriteria`, `standards`, `wcag`, `severity`) are not modelled;
no claim refers to them. -/
structure NormalizedRule where
  id : String
  impact : Option String
  help : String
  description : Option String
  helpUrl : String
  tags : Option (List String)
  nodes : List NormalizedNode
deriving DecidableEq, Repr

/-- Violation/incomplete node mapping of part_002 (`html`, `target`,
`failureSummary`, `element || null`). -/
def normNodeFull (n : AxeNode) : NormalizedNode :=
  { html := n.html, target := n.target, failureSummary := n.failureSummary
    element := n.element }

/-- Pass node mapping of part_002/part_003 (`html` and `target` only). -/
def normNodePass (n : AxeNode) : NormalizedNode :=
  { html := n.html, target := n.target, failureSummary := none, element := none }

/-- Rule mapping shared by the four sequences: copy identifier, impact, help,
description, helpUrl and tags; map the nodes with the given node mapping. -/
def normRule (nodeMap : AxeNode → NormalizedNode) (v : AxeRule) : NormalizedRule :=
  { id := v.id, impact := v.impact, help := v.help, description := v.description
    helpUrl := v.helpUrl, tags := v.tags, nodes := v.nodes.map nodeMap }

/-- Inapplicable entries carry no `nodes` field in the source output. -/
def normRuleNoNodes (v : AxeRule) : NormalizedRule :=
  { id := v.id, impact := v.impact, help := v.help, description := v.description
    helpUrl := v.helpUrl, tags := v.tags, nodes := [] }

end A11y

namespace AxeRunnerV2

open A11y

/-- The statistics block of part_002's `normalizeResults` (lines 150-158). -/
structure Statistics where
  totalTestsRun : Nat
  testsPassed : Nat
  issuesFound : Nat
  manualReviews : Nat
  severityCounts : List (String × Nat)
  automatedCoverage : Nat
  standardsCovered : Nat
deriving DecidableEq, Repr

/-- The normalized report of part_002. The metadata block, tool identity and
context echo of the source (pure copies of ambient values) are not modelled;
no claim refers to them. -/
structure NormalizedReport where
  url : String
  timestamp : String
  statistics : Statistics
  violations : List NormalizedRule
  passes : List NormalizedRule
  incomplete : List NormalizedRule
  inapplicable : List NormalizedRule
deriving DecidableEq, Repr

/-- part_002 `normalizeResults` (lines 73-234): compute
`totalTestsRun` as the sum of the four raw sequence lengths, tally violation
impacts, compute `automatedCoverage`, and map the four sequences. -/
def normalizeResults (raw : RawEngineResult) (ctx : ScanContext) (env : NormEnv) :
    NormalizedReport :=
  let totalTestsRun :=
    jsLen raw.violations + jsLen raw.passes + jsLen raw.incomplete +
      jsLen raw.inapplicable
  let testsPassed := jsLen raw.passes
  let issuesFound := jsLen raw.violations
  let manualReviews := jsLen raw.incomplete
  let severityCounts := severityCountsOf ((jsList raw.violations).map (·.impact))
  { url := env.url
    timestamp := env.timestamp
    statistics :=
      { totalTestsRun := totalTestsRun
        testsPassed := testsPassed
        issuesFound := issuesFound
        manualReviews := manualReviews
        severityCounts := severityCounts
        automatedCoverage := jsCoverage testsPassed totalTestsRun
        standardsCovered := jsLen ctx.tags }
    violations := (jsList raw.violations).map (normRule normNodeFull)
    passes := (jsList raw.passes).map (normRule normNodePass)
    incomplete := (jsList raw.incomplete).map (normRule normNodeFull)
    inapplicable := (jsList raw.inapplicable).map normRuleNoNodes }

/-- `allowedImpacts.includes(v.impact)`: strict equality against a list of
strings, so a missing impact is never included. -/
def impactIncluded (allowed : List String) (impact : Option String) : Bool :=
  match impact with
  | some s => allowed.contains s
  | none => false

/-- part_002 `filterByImpact` (lines 338-384): with a null or empty filter the
report is returned unchanged; otherwise violations, passes and incomplete are
filtered by impact (inapplicable is untouched), and of the statistics block
only `issuesFound`, `testsPassed`, `manualReviews` and `severityCounts` are
recomputed — `totalTestsRun`, `automatedCoverage` and `standardsCovered` keep
their pre-filter values. -/
def filterByImpact (results : NormalizedReport) (allowedImpacts : Option (List String)) :
    NormalizedReport :=
  match allowedImpacts with
  | none => results
  | some allowed =>
    if allowed.isEmpty then results
    else
      let fv := results.violations.filter (fun v => impactIncluded allowed v.impact)
      let fp := results.passes.filter (fun p => impactIncluded allowed p.impact)
      let fi := results.incomplete.filter (fun i => impactIncluded allowed i.impact)
      { results with
        violations := fv
        passes := fp
        incomplete := fi
        statistics :=
          { results.statistics with
            issuesFound := fv.length
            testsPassed := fp.length
            manualReviews := fi.length
            severityCounts := severityCountsOf (fv.map (·.impact)) } }

end AxeRunnerV2

namespace AxeRunnerV3

open A11y

/-- The statistics block of part_003's `normalizeResults` (lines 118-127):
`automatedCoverage` and `wcagCriteriaTested` are hard-coded constants. -/
structure Statistics where
  totalTestsRun : Nat
  testsPassed : Nat
  issuesFound : Nat
  manualReviews : Nat
  severityCounts : List (String × Nat)
  automatedCoverage : Nat
  wcagCriteriaTested : Nat
  standardsTested : Nat
deriving DecidableEq, Repr

/-- The normalized report of part_003 (metadata/tool/context echoes omitted as
in the part_002 model). -/
structure NormalizedReport where
  url : String
  timestamp : String
  statistics : Statistics
  violations : List NormalizedRule
  passes : List NormalizedRule
  incomplete : List NormalizedRule
  inapplicable : List NormalizedRule
deriving DecidableEq, Repr

/-- part_003 `normalizeResults` (lines 70-206): same counts and severity tally
as part_002, but `automatedCoverage` is the constant 100 and
`wcagCriteriaTested` the constant 78. -/
def normalizeResults (raw : RawEngineResult) (ctx : ScanContext) (env : NormEnv) :
    NormalizedReport :=
  let totalTestsRun :=
    jsLen raw.violations + jsLen raw.passes + jsLen raw.incomplete +
      jsLen raw.inapplicable
  let testsPassed := jsLen raw.passes
  let issuesFound := jsLen raw.violations
  let manualReviews := jsLen raw.incomplete
  let severityCounts := severityCountsOf ((jsList raw.violations).map (·.impact))
  { url := env.url
    timestamp := env.timestamp
    statistics :=
      { totalTestsRun := totalTestsRun
        testsPassed := testsPassed
        issuesFound := issuesFound
        manualReviews := manualReviews
        severityCounts := severityCounts
        automatedCoverage := 100
        wcagCriteriaTested := 78
        standardsTested := jsLen ctx.tags }
    violations := (jsList raw.violations).map (normRule normNodeFull)
    passes := (jsList raw.passes).map (normRule normNodePass)
    incomplete := (jsList raw.incomplete).map (normRule normNodeFull)
    inapplicable := (jsList raw.inapplicable).map normRuleNoNodes }

/-- part_003 `filterByImpact` (lines 340-386): textually the same code as
part_002's, operating on part_003's report shape. -/
def filterByImpact (results : NormalizedReport) (allowedImpacts : Option (List String)) :
    NormalizedReport :=
  match allowedImpacts with
  | none => results
  | some allowed =>
    if allowed.isEmpty then results
    else
      let fv := results.violations.filter
        (fun v => AxeRunnerV2.impactIncluded allowed v.impact)
      let fp := results.passes.filter
        (fun p => AxeRunnerV2.impactIncluded allowed p.impact)
      let fi := results.incomplete.filter
        (fun i => AxeRunnerV2.impactIncluded allowed i.impact)
      { results with
        violations := fv
        passes := fp
        incomplete := fi
        statistics :=
          { results.statistics with
            issuesFound := fv.length
            testsPassed := fp.length
            manualReviews := fi.length
            severityCounts := severityCountsOf (fv.map (·.impact)) } }

end AxeRunnerV3

namespace EngineConfig

open A11y

/-- The caller's scan configuration as consumed by the `buildAxeConfig`
variants: requested tags, per-rule overrides (passed through verbatim; the
enabled flag is the only option the claims touch), requested impacts, and the
part_003 feature overrides. -/
structure ScanConfig where
  tags : Option (List String)
  rules : Option (List (String × Bool))
  impacts : Option (List String)
  iframes : Option Bool
  elementRef : Option Bool
  restoreScroll : Option Bool
deriving DecidableEq, Repr

/-- The `runOnly` clause of an axe configuration. -/
structure RunOnly where
  type : String
  values : List String
deriving DecidableEq, Repr

/-- part_001 `buildAxeConfig` (lines 73-91): `preload:false`,
`resultTypes:[violations]`, `runOnly` only when tags were requested, rules
passed through. -/
structure AxeConfigV1 where
  preload : Bool
  resultTypes : List String
  runOnly : Option RunOnly
  rules : Option (List (String × Bool))
deriving DecidableEq, Repr

def buildAxeConfigV1 (config : ScanConfig) : AxeConfigV1 :=
  { preload := false
    resultTypes := ["violations"]
    runOnly :=
      match config.tags with
      | some ts => if ts.length > 0 then some { type := "tag", values := ts } else none
      | none => none
    rules := config.rules }

/-- Character-level substring scan: does `pat` occur contiguously in `l`? -/
def charsContain : List Char → List Char → Bool
  | [], pat => pat.isEmpty
  | c :: rest, pat => pat.isPrefixOf (c :: rest) || charsContain rest pat

/-- `tag.includes(pat)`: the JavaScript substring test. -/
def jsIncludesSub (s pat : String) : Bool := charsContain s.data pat.data

/-- The axe configuration shape built by part_002 and part_003
(`runOnly` always present). -/
structure AxeConfig where
  preload : Bool
  pingWaitTime : Nat
  timeout : Nat
  resultTypes : List String
  iframes : Bool
  elementRef : Bool
  restoreScroll : Bool
  selectors : Bool
  runOnly : RunOnly
  rules : Option (List (String × Bool))
  impactLevels : Option (List String)
deriving DecidableEq, Repr

/-- part_002's default tag list (lines 278-280): every tag the engine reports,
minus those containing `experimental`. `allTags` is the tag set returned by
`getAllAvailableTags` (engine state, passed explicitly). -/
def defaultTagsV2 (allTags : List String) : List String :=
  allTags.filter (fun tag => !jsIncludesSub tag "experimental")

/-- part_002 `buildAxeConfig` (lines 273-317): all four result types; a
non-empty requested tag list is restricted to the tags the engine recognizes,
an empty one falls back to `defaultTagsV2`; rules and impacts pass through. -/
def buildAxeConfigV2 (config : ScanConfig) (allTags : List String) : AxeConfig :=
  { preload := false
    pingWaitTime := 100
    timeout := 60000
    resultTypes := ["violations", "passes", "incomplete", "inapplicable"]
    iframes := true
    elementRef := true
    restoreScroll := true
    selectors := true
    runOnly :=
      { type := "tag"
        values :=
          match config.tags with
          | some ts =>
            if ts.length > 0 then ts.filter (fun tag => allTags.contains tag)
            else defaultTagsV2 allTags
          | none => defaultTagsV2 allTags }
    rules := config.rules
    impactLevels :=
      match config.impacts with
      | some imps => if imps.length > 0 then some imps else none
      | none => none }

/-- part_002 `runAxe` (lines 319-336): builds the configuration and computes
the diagnostic list of requested tags that were dropped (`invalidTags`,
reported via `console.warn`, never a failure); returns both. -/
def runAxeV2 (config : ScanConfig) (allTags : List String) :
    AxeConfig × List String :=
  let axeConfig := buildAxeConfigV2 config allTags
  let validTags := axeConfig.runOnly.values
  let invalidTags :=
    match config.tags with
    | some ts => ts.filter (fun tag => !validTags.contains tag)
    | none => []
  (axeConfig, invalidTags)

/-- part_003's hard-coded default tag list (lines 247-271). -/
def defaultTagsV3 : List String :=
  ["wcag2a", "wcag2aa", "wcag2aaa",
   "wcag21a", "wcag21aa", "wcag21aaa",
   "wcag22a", "wcag22aa", "wcag22aaa",
   "section508", "section508.22.a", "ada",
   "en-301-549", "act",
   "best-practice", "experimental",
   "cat", "aria", "html5", "semantics",
   "cognitive", "learning", "motor", "keyboard",
   "low-vision", "color-blindness", "contrast",
   "hearing", "auditory", "aging",
   "mobile", "responsive", "touch",
   "screen-readers", "voice-control"]

/-- part_003 `buildAxeConfig` (lines 245-326): all four result types; a
non-empty requested tag list is passed through unfiltered, an empty one falls
back to the hard-coded defaults; iframe/elementRef/restoreScroll overrides
apply when explicitly provided. The untyped `config.performance` spread is
outside the model. -/
def buildAxeConfigV3 (config : ScanConfig) : AxeConfig :=
  { preload := false
    pingWaitTime := 100
    timeout := 60000
    resultTypes := ["violations", "passes", "incomplete", "inapplicable"]
    iframes := config.iframes.getD true
    elementRef := config.elementRef.getD true
    restoreScroll := config.restoreScroll.getD true
    selectors := true
    runOnly :=
      { type := "tag"
        values :=
          match config.tags with
          | some ts => if ts.length > 0 then ts else defaultTagsV3
          | none => defaultTagsV3 }
    rules := config.rules
    impactLevels :=
      match config.impacts with
      | some imps => if imps.length > 0 then some imps else none
      | none => none }

end EngineConfig

namespace SarifReporter

open A11y

/-- `a || b` on strings: an absent or empty left operand falls back to the
right one. -/
def jsOr (a : Option String) (b : String) : String :=
  match a with
  | some s => if s = "" then b else s
  | none => b

/-- The `impactToLevel` table of part_000 (lines 13-18). -/
def impactToLevel : List (String × String) :=
  [("critical", "error"), ("serious", "error"),
   ("moderate", "warning"), ("minor", "note")]

/-- `impactToLevel[violation.impact] || warning` (part_000 line 50): a missing
or unmapped impact yields `warning`. -/
def lookupLevel (impact : Option String) : String :=
  match impact with
  | some s => (((impactToLevel.find? (fun p => p.1 == s)).map (·.2)).getD "warning")
  | none => "warning"

/-- part_000 `normalizeUri` (lines 20-24). -/
def normalizeUri (uri : Option String) : String :=
  match uri with
  | none => "file:///unknown"
  | some u =>
    if u = "" then "file:///unknown"
    else if u.startsWith "http" then u
    else "file://" ++ u

/-- A `tool.driver.rules` entry of the SARIF document (part_000 `buildRule`,
lines 26-45; the nested description/help objects are flattened to their text
fields). -/
structure SarifRule where
  id : String
  name : String
  shortDescriptionText : String
  fullDescriptionText : String
  helpText : String
  helpMarkdown : String
  propertiesTags : List String
  propertiesCategory : String
deriving DecidableEq, Repr

def buildRule (rule : AxeRule) : SarifRule :=
  { id := rule.id
    name := rule.id
    shortDescriptionText := rule.help
    fullDescriptionText := jsOr rule.description rule.help
    helpText := rule.help
    helpMarkdown := "[Learn more](" ++ rule.helpUrl ++ ")"
    propertiesTags := jsList rule.tags
    propertiesCategory := "Accessibility" }

/-- A `runs[0].results` entry of the SARIF document (part_000 `buildResult`,
lines 47-75; the single physical location is flattened to its uri/snippet). -/
structure SarifResult where
  ruleId : String
  level : String
  messageText : String
  uri : String
  snippetText : String
  propImpact : Option String
  propWcagTags : List String
  propFailureSummary : String
  propTarget : List String
deriving DecidableEq, Repr

def buildResult (violation : AxeRule) (node : AxeNode) (pageUrl : Option String) :
    SarifResult :=
  { ruleId := violation.id
    level := lookupLevel violation.impact
    messageText := violation.help
    uri := normalizeUri pageUrl
    snippetText := node.html
    propImpact := violation.impact
    propWcagTags := jsList violation.tags
    propFailureSummary := jsOrEmpty node.failureSummary
    propTarget := node.target }

/-- One step of `rules[violation.id] = buildRule(violation)` (part_000
line 85) on the plain object keyed by rule id: an existing key keeps its
position and is overwritten, a new key is appended. -/
def upsertRule (acc : List SarifRule) (v : AxeRule) : List SarifRule :=
  if acc.any (fun r => r.id == v.id) then
    acc.map (fun r => if r.id == v.id then buildRule v else r)
  else acc ++ [buildRule v]

/-- `Object.values(rules)` after the forEach over violations. -/
def sarifRules (vs : List AxeRule) : List SarifRule := vs.foldl upsertRule []

/-- The `sarifResults` array (part_000 lines 87-91): for each violation, one
pushed entry per node. -/
def sarifResultsList (vs : List AxeRule) (url : Option String) : List SarifResult :=
  match vs with
  | [] => []
  | v :: rest => v.nodes.map (fun n => buildResult v n url) ++ sarifResultsList rest url

/-- The input object of the CLI reporters in part_000 (axe results plus the
page url). -/
structure ReporterInput where
  url : Option String
  violations : Option (List AxeRule)
deriving DecidableEq, Repr

/-- The SARIF 2.1.0 document assembled by part_000 `writeSarif`
(lines 77-114); the file write is outside the model. -/
structure SarifDoc where
  version : String
  schema : String
  toolName : String
  toolVersion : String
  rules : List SarifRule
  results : List SarifResult
deriving DecidableEq, Repr

def writeSarif (results : ReporterInput) : SarifDoc :=
  { version := "2.1.0"
    schema := "https://schemastore.azurewebsites.net/schemas/json/sarif-2.1.0.json"
    toolName := "Awesome Accessibility Auditor"
    toolVersion := "1.0.0"
    rules := sarifRules (jsList results.violations)
    results := sarifResultsList (jsList results.violations) results.url }

end SarifReporter

namespace HtmlReporter

open A11y

/-- One character of part_000 `escapeHtml` (lines 123-128). The three
sequential global replaces equal this character-wise map: the first pass
(`&` to `&amp;`) emits no `<` or `>`, and the later passes emit `&` only
inside already-final entities. -/
def escapeHtmlChar (c : Char) : String :=
  if c = '&' then "&amp;"
  else if c = '<' then "&lt;"
  else if c = '>' then "&gt;"
  else String.singleton c

def escapeHtml (s : String) : String := String.join (s.data.map escapeHtmlChar)

/-- `colors[impact] || gray` of part_000 `impactBadge` (lines 130-146). -/
def badgeColor (impact : Option String) : String :=
  match impact with
  | some "critical" => "#b91c1c"
  | some "serious" => "#dc2626"
  | some "moderate" => "#f59e0b"
  | some "minor" => "#2563eb"
  | _ => "#6b7280"

/-- part_000 `impactBadge` (lines 130-146); whitespace inside the template
literal is reproduced up to indentation. -/
def impactBadge (impact : Option String) : String :=
  "<span style=\"\n background:" ++ badgeColor impact ++
    ";\n color:#fff;\n padding:2px 6px;\n border-radius:4px;\n font-size:12px;\n text-transform:uppercase;\n \">" ++
    jsShow impact ++ "</span>"

/-- The per-node fragment of part_000 `renderViolation` (lines 163-169): the
markup snippet goes through `escapeHtml`, the failure summary does not. -/
def renderNodeHtml (node : AxeNode) : String :=
  "\n <details>\n <summary>Affected element</summary>\n <pre>" ++
    escapeHtml node.html ++ "</pre>\n <p>" ++ jsOrEmpty node.failureSummary ++
    "</p>\n </details>\n "

/-- part_000 `renderViolation` (lines 148-172): the help text, description,
rule id, tags and help URL are interpolated without escaping; only each
node's markup snippet is escaped. Whitespace is reproduced up to
indentation. -/
def renderViolation (violation : AxeRule) : String :=
  "\n <section class=\"violation\">\n <h3>" ++ violation.help ++ " " ++
    impactBadge violation.impact ++ "</h3>\n <p>" ++
    jsOrEmpty violation.description ++ "</p>\n <p>\n <strong>Rule:</strong> " ++
    violation.id ++ " |\n <strong>WCAG:</strong> " ++
    String.intercalate ", " (jsList violation.tags) ++
    "\n </p>\n <p>\n <a href=\"" ++ violation.helpUrl ++
    "\" target=\"_blank\" rel=\"noopener\">\n Fix guidance\n </a>\n </p>\n\n " ++
    String.join (violation.nodes.map renderNodeHtml) ++ "\n </section>\n "

end HtmlReporter

namespace Popup

open A11y

/-- The active browser tab as resolved by `chrome.tabs.query`. -/
structure TabInfo where
  id : Nat
  url : String
deriving DecidableEq, Repr

/-- The report object the injected runner stores in
`window.__A11Y_SCAN_RESULT__`. Only the fields `runScan` itself touches
(url and timestamp, overwritten before saving) and the violations it
announces are modelled. -/
structure PopupReport where
  url : String
  timestamp : String
  violations : List AxeRule
deriving DecidableEq, Repr

/-- One poll of the page globals (service-worker.js lines 519-525): the
values of `window.__A11Y_SCAN_RESULT__` and `window.__A11Y_SCAN_ERROR__` at
that attempt. -/
structure PollView where
  result : Option PopupReport
  error : Option String
deriving DecidableEq, Repr

/-- The environment one `runScan` call runs against: the resolved tab, whether
the readiness probe and the axe injection succeed, the poll views per attempt,
and the clock. -/
structure ScanEnv where
  activeTab : Option TabInfo
  pageAccessible : Bool
  injectOk : Bool
  polls : Nat → PollView
  now : String

/-- The popup-side mutable state `runScan` touches: the `isScanning` reentrancy
flag (line 86) and the background result store `resultsByTab` (line 25,
written through the SAVE_A11Y_RESULTS message, lines 55-59). -/
structure ScanState where
  isScanning : Bool
  resultsByTab : List (String × PopupReport)
deriving DecidableEq, Repr

/-- How one `runScan` call ends: the silent early return of a reentrant call
(line 446), a successful scan, or a caught error (handled by
`handleScanError`). -/
inductive ScanOutcome where
  | skipped
  | success (r : PopupReport)
  | failure (msg : String)
deriving DecidableEq, Repr

/-- `tabKey` (service-worker.js lines 244-246). -/
def tabKey (t : TabInfo) : String := toString t.id ++ ":" ++ t.url

/-- `resultsByTab.set(key, results)`: replace in place or append. -/
def storeSet (m : List (String × PopupReport)) (k : String) (v : PopupReport) :
    List (String × PopupReport) :=
  if m.any (fun p => p.1 == k) then
    m.map (fun p => if p.1 == k then (k, v) else p)
  else m ++ [(k, v)]

/-- `if (r?.error)` truthiness: an absent or empty error string does not
trigger the failure branch. -/
def errTruthy (v : PollView) : Option String :=
  match v.error with
  | some e => if e = "" then none else some e
  | none => none

/-- The bounded result-polling loop (service-worker.js lines 515-537):
at each of the remaining attempts, a truthy error throws, a present result
ends the loop, otherwise the next attempt runs; exhausted attempts yield no
result. The 100 ms inter-attempt sleep has no observable effect here. -/
def pollLoop (polls : Nat → PollView) : Nat → Nat → Except String (Option PopupReport)
  | _, 0 => .ok none
  | i, fuel + 1 =>
    match errTruthy (polls i) with
    | some e => .error ("Scan failed: " ++ e)
    | none =>
      match (polls i).result with
      | some r => .ok (some r)
      | none => pollLoop polls (i + 1) fuel

/-- The body of `runScan` between the try and the catch (service-worker.js
lines 448-556): resolve the tab, probe page accessibility, inject the runner,
poll up to 50 times, raise the timeout error when no result materialized, and
only then stamp url/timestamp onto the result and save it to the store.
Error messages of probe and injection failures are abbreviated; the UI
side effects (status text, announcements, rendering) are outside the model. -/
def scanBody (store : List (String × PopupReport)) (env : ScanEnv) :
    Except String (List (String × PopupReport) × PopupReport) :=
  match env.activeTab with
  | none => .error "No active tab available for scanning"
  | some tab =>
    if !env.pageAccessible then .error "Cannot access page"
    else if !env.injectOk then .error "Injection failed"
    else
      match pollLoop env.polls 0 50 with
      | .error e => .error e
      | .ok none => .error "Accessibility scan timed out."
      | .ok (some r) =>
        let withMeta := { r with url := tab.url, timestamp := env.now }
        .ok (storeSet store (tabKey tab) withMeta, withMeta)

/-- `runScan` (service-worker.js lines 445-565): a reentrant call returns
immediately (line 446) with no error and no state change; otherwise the body
runs with `isScanning` set, errors are caught and handed to
`handleScanError`, and the finally block clears `isScanning` on every
outcome. -/
def runScan (st : ScanState) (env : ScanEnv) : ScanState × ScanOutcome :=
  if st.isScanning then (st, .skipped)
  else
    match scanBody st.resultsByTab env with
    | .ok (store2, r) =>
      ({ isScanning := false, resultsByTab := store2 }, .success r)
    | .error msg =>
      ({ isScanning := false, resultsByTab := st.resultsByTab }, .failure msg)

end Popup

namespace Claims

open A11y EngineConfig SarifReporter HtmlReporter Popup

/-- A violation is counted by the severity tally exactly when its impact
field is a non-empty string (`impact?.toLowerCase()` is truthy). -/
def hasImpact (impact : Option String) : Bool := impact.getD "" != ""

/-- Well-formedness of a severity tally object: keys are distinct (JavaScript
object keys are unique) and the empty string is never a key (only truthy
severities open buckets). -/
def WfTally (acc : List (String × Nat)) : Prop :=
  (acc.map (·.1)).Nodup ∧ "" ∉ acc.map (·.1)

/-- The severity-to-SARIF-level mapping exactly as the spec states it
(critical and serious to error, moderate to warning, minor to note, anything
else to warning), for comparison against the code's `impactToLevel` lookup. -/
def specLevelMap (impact : Option String) : String :=
  match impact with
  | none => "warning"
  | some s =>
    if s = "critical" then "error"
    else if s = "serious" then "error"
    else if s = "moderate" then "warning"
    else if s = "minor" then "note"
    else "warning"

/-- A raw engine result with zero entries in all four sequences. -/
def emptyRaw : RawEngineResult :=
  { violations := some [], passes := some [], incomplete := some []
    inapplicable := some [] }

/-- An empty caller context. -/
def ctx0 : ScanContext := { impacts := none, tags := none }

/-- A fixed ambient environment for concrete evaluations. -/
def env0 : NormEnv :=
  { url := "https://example.com", timestamp := "2026-01-01T00:00:00.000Z"
    axeVersion := "4.10.0", availableTags := [] }

/-- A violation with impact `serious` and no nodes. -/
def vSerious : AxeRule :=
  { id := "color-contrast", impact := some "serious", help := "Contrast"
    description := none, helpUrl := "https://d.example/contrast", tags := none
    nodes := [] }

/-- A pass entry whose impact field is null, as axe reports passes. -/
def pNull : AxeRule :=
  { id := "image-alt", impact := none, help := "Images have alt text"
    description := none, helpUrl := "https://d.example/image-alt", tags := none
    nodes := [] }

/-- A violation carrying no impact at all. -/
def vNoImpact : AxeRule :=
  { id := "label", impact := none, help := "Form labels"
    description := none, helpUrl := "https://d.example/label", tags := none
    nodes := [] }

/-- Raw result with one serious violation and one impact-less pass. -/
def raw0 : RawEngineResult :=
  { violations := some [vSerious], passes := some [pNull], incomplete := some []
    inapplicable := some [] }

/-- Raw result whose only violation carries no impact. -/
def raw1 : RawEngineResult :=
  { violations := some [vNoImpact], passes := some [], incomplete := some []
    inapplicable := some [] }

/-- Raw result with 23 passes out of 40 total entries: the binary64
evaluation of (23/40)·100 is 57.49999999999999289, so `Math.round` gives 57,
while exact half-up rounding of 57.5 would give 58. -/
def raw23of40 : RawEngineResult :=
  { violations := some [], passes := some (List.replicate 23 pNull)
    incomplete := some [], inapplicable := some (List.replicate 17 pNull) }

/-- A scan configuration requesting only the unrecognized tag `wcag99aa`. -/
def cfgUnknownTag : ScanConfig :=
  { tags := some ["wcag99aa"], rules := none, impacts := none, iframes := none
    elementRef := none, restoreScroll := none }

/-- A tag set the engine recognizes, for the unrecognized-tag scenario. -/
def allTags0 : List String := ["wcag2a", "wcag2aa"]

/-- An empty scan configuration. -/
def cfgEmpty : ScanConfig :=
  { tags := none, rules := none, impacts := none, iframes := none
    elementRef := none, restoreScroll := none }

/-- Two affected nodes for the SARIF scenario. -/
def nodeA : AxeNode :=
  { html := "<img src=x>", target := ["img:nth-child(1)"], failureSummary := some "Fix this"
    element := none }

def nodeB : AxeNode :=
  { html := "<img src=y>", target := ["img:nth-child(2)"], failureSummary := none
    element := none }

/-- One critical violation with two affected nodes. -/
def vCritical2 : AxeRule :=
  { id := "image-alt", impact := some "critical", help := "Images must have alternate text"
    description := some "Ensures img elements have alternate text"
    helpUrl := "https://d.example/image-alt", tags := some ["wcag2a", "wcag111"]
    nodes := [nodeA, nodeB] }

/-- SARIF scenario input: one critical violation, two nodes. -/
def sarifScenario : ReporterInput :=
  { url := some "https://example.com", violations := some [vCritical2] }

/-- A violation whose help text is an unescaped script tag, for the HTML
escaping counterexample. -/
def vScriptHelp : AxeRule :=
  { id := "r", impact := some "minor", help := "<script>alert(1)</script>"
    description := none, helpUrl := "https://d.example/r", tags := none
    nodes := [] }

/-- The HTML renderer as the spec demands it: every untrusted field (markup
snippet, help text, description, failure summary, help URL) goes through
`escapeHtml` before interpolation. Stated from the spec's words, for
comparison with the code's `renderViolation`. -/
def renderViolationSpec (violation : AxeRule) : String :=
  "\n <section class=\"violation\">\n <h3>" ++ escapeHtml violation.help ++ " " ++
    impactBadge violation.impact ++ "</h3>\n <p>" ++
    escapeHtml (jsOrEmpty violation.description) ++ "</p>\n <p>\n <strong>Rule:</strong> " ++
    violation.id ++ " |\n <strong>WCAG:</strong> " ++
    String.intercalate ", " (jsList violation.tags) ++
    "\n </p>\n <p>\n <a href=\"" ++ escapeHtml violation.helpUrl ++
    "\" target=\"_blank\" rel=\"noopener\">\n Fix guidance\n </a>\n </p>\n\n " ++
    String.join (violation.nodes.map (fun node =>
      "\n <details>\n <summary>Affected element</summary>\n <pre>" ++
        escapeHtml node.html ++ "</pre>\n <p>" ++
        escapeHtml (jsOrEmpty node.failureSummary) ++ "</p>\n </details>\n ")) ++
    "\n </section>\n "

/-- A popup state with a scan already in flight. -/
def stBusy : ScanState := { isScanning := true, resultsByTab := [] }

/-- A popup state with no scan in flight and one stored report. -/
def report0 : PopupReport :=
  { url := "https://old.example", timestamp := "2025-12-31T00:00:00.000Z"
    violations := [] }

def stIdle : ScanState :=
  { isScanning := false, resultsByTab := [("1:https://example.com", report0)] }

/-- An environment whose polls never produce a result or an error. -/
def envSilent : ScanEnv :=
  { activeTab := some { id := 1, url := "https://example.com" }
    pageAccessible := true, injectOk := true
    polls := fun _ => { result := none, error := none }
    now := "2026-01-01T00:00:00.000Z" }

/-- An environment that delivers a result on the first poll. -/
def envQuick : ScanEnv :=
  { activeTab := some { id := 1, url := "https://example.com" }
    pageAccessible := true, injectOk := true
    polls := fun _ =>
      { result := some { url := "", timestamp := "", violations := [] }
        error := none }
    now := "2026-01-01T00:00:00.000Z" }

end Claims

namespace Claims

open A11y EngineConfig SarifReporter HtmlReporter Popup

theorem tallySum_nil : tallySum [] = 0 := rfl

theorem tallySum_cons (p : String × Nat) (l : List (String × Nat)) :
    tallySum (p :: l) = p.2 + tallySum l := by
  simp [tallySum]

theorem tallySum_append (l r : List (String × Nat)) :
    tallySum (l ++ r) = tallySum l + tallySum r := by
  simp [tallySum]

theorem jsToLowerCase_eq_empty {s : String} : jsToLowerCase s = "" ↔ s = "" := by
  cases s with
  | mk data =>
    simp [jsToLowerCase, String.ext_iff]

theorem keys_incr (acc : List (String × Nat)) (sev : String) :
    ((acc.map (fun p => if p.1 == sev then (p.1, p.2 + 1) else p)).map (·.1)) =
      acc.map (·.1) := by
  rw [List.map_map]
  apply List.map_congr_left
  intro p _
  by_cases h : p.1 = sev <;> simp [h]

theorem tallySum_incr (acc : List (String × Nat)) (sev : String)
    (hmem : sev ∈ acc.map (·.1)) (hnd : (acc.map (·.1)).Nodup) :
    tallySum (acc.map (fun p => if p.1 == sev then (p.1, p.2 + 1) else p)) =
      tallySum acc + 1 := by
  induction acc with
  | nil => simp at hmem
  | cons p rest ih =>
    simp only [List.map_cons, List.nodup_cons] at hnd
    by_cases hp : p.1 = sev
    · have hrest : rest.map (fun q => if q.1 == sev then (q.1, q.2 + 1) else q) = rest := by
        have h1 : ∀ q ∈ rest, (if q.1 == sev then (q.1, q.2 + 1) else q) = q := by
          intro q hq
          have hne : q.1 ≠ sev := by
            intro he
            exact hnd.1 (by
              rw [hp, ← he]
              exact List.mem_map_of_mem (·.1) hq)
          simp [hne]
        rw [List.map_congr_left h1]
        simp
      simp only [List.map_cons, hp, beq_self_eq_true, if_true, hrest,
        tallySum_cons]
      omega
    · have hmem' : sev ∈ rest.map (·.1) := by
        rw [List.map_cons] at hmem
        rcases List.mem_cons.mp hmem with h | h
        · exact absurd h.symm hp
        · exact h
      have hif : (p.1 == sev) = false := by simp [hp]
      simp only [List.map_cons, hif, Bool.false_eq_true, if_false, tallySum_cons,
        ih hmem' hnd.2]
      omega

theorem bumpSeverity_own (acc : List (String × Nat)) (s : String)
    (hany : acc.any (fun p => p.1 == jsToLowerCase s) = true) :
    bumpSeverity acc (some s) =
      acc.map (fun p => if p.1 == jsToLowerCase s then (p.1, p.2 + 1) else p) := by
  simp only [bumpSeverity]
  rw [if_pos hany]

theorem bumpSeverity_new (acc : List (String × Nat)) (s : String)
    (hany : ¬acc.any (fun p => p.1 == jsToLowerCase s) = true)
    (hse : ¬jsToLowerCase s = "") :
    bumpSeverity acc (some s) = acc ++ [(jsToLowerCase s, 1)] := by
  simp only [bumpSeverity]
  rw [if_neg hany, if_pos hse]

theorem bumpSeverity_drop (acc : List (String × Nat)) (s : String)
    (hany : ¬acc.any (fun p => p.1 == jsToLowerCase s) = true)
    (hse : jsToLowerCase s = "") :
    bumpSeverity acc (some s) = acc := by
  simp only [bumpSeverity]
  rw [if_neg hany, if_neg (fun hne => hne hse)]

theorem wfTally_bump (acc : List (String × Nat)) (imp : Option String)
    (h : WfTally acc) : WfTally (bumpSeverity acc imp) := by
  rcases imp with _ | s
  · exact h
  · by_cases hany : acc.any (fun p => p.1 == jsToLowerCase s) = true
    · rw [bumpSeverity_own acc s hany]
      exact ⟨by rw [keys_incr]; exact h.1, by rw [keys_incr]; exact h.2⟩
    · by_cases hse : jsToLowerCase s = ""
      · rw [bumpSeverity_drop acc s hany hse]; exact h
      · have hnotmem : jsToLowerCase s ∉ acc.map (·.1) := by
          intro hm
          rcases List.mem_map.mp hm with ⟨p, hp, he⟩
          exact hany (List.any_eq_true.mpr ⟨p, hp, by simp [he]⟩)
        rw [bumpSeverity_new acc s hany hse]
        constructor
        · simp only [List.map_append, List.map_cons, List.map_nil]
          rw [List.nodup_append]
          exact ⟨h.1, List.nodup_singleton _, by simpa using hnotmem⟩
        · simp only [List.map_append, List.map_cons, List.map_nil]
          intro hm
          rcases List.mem_append.mp hm with hm | hm
          · exact h.2 hm
          · simp at hm
            exact hse hm.symm

theorem tallySum_bump (acc : List (String × Nat)) (imp : Option String)
    (h : WfTally acc) :
    tallySum (bumpSeverity acc imp) =
      tallySum acc + (if hasImpact imp then 1 else 0) := by
  rcases imp with _ | s
  · simp [bumpSeverity, hasImpact]
  · by_cases hany : acc.any (fun p => p.1 == jsToLowerCase s) = true
    · have hmem : jsToLowerCase s ∈ acc.map (·.1) := by
        rcases List.any_eq_true.mp hany with ⟨p, hp, he⟩
        exact List.mem_map.mpr ⟨p, hp, by simpa using he⟩
      have hs : s ≠ "" := by
        intro he
        apply h.2
        rw [← jsToLowerCase_eq_empty.mpr he]
        exact hmem
      rw [bumpSeverity_own acc s hany, tallySum_incr acc _ hmem h.1]
      simp [hasImpact, hs]
    · by_cases hse : jsToLowerCase s = ""
      · have hs : s = "" := jsToLowerCase_eq_empty.mp hse
        rw [bumpSeverity_drop acc s hany hse]
        simp [hasImpact, hs]
      · have hs : s ≠ "" := fun he => hse (jsToLowerCase_eq_empty.mpr he)
        rw [bumpSeverity_new acc s hany hse, tallySum_append]
        simp [hasImpact, hs, tallySum_cons, tallySum_nil]

theorem tallySum_foldl (imps : List (Option String)) :
    ∀ acc, WfTally acc →
      tallySum (imps.foldl bumpSeverity acc) =
        tallySum acc + (imps.filter hasImpact).length := by
  induction imps with
  | nil => intro acc _; simp
  | cons i rest ih =>
    intro acc h
    simp only [List.foldl_cons]
    rw [ih _ (wfTally_bump _ _ h), tallySum_bump _ _ h]
    by_cases hi : hasImpact i <;> simp [hi, List.filter_cons] <;> omega

theorem wfTally_buckets0 : WfTally severityBuckets0 :=
  ⟨by decide, by decide⟩

theorem severityCountsOf_sum (imps : List (Option String)) :
    tallySum (severityCountsOf imps) = (imps.filter hasImpact).length := by
  rw [severityCountsOf, tallySum_foldl imps severityBuckets0 wfTally_buckets0]
  have h0 : tallySum severityBuckets0 = 0 := by decide
  rw [h0, Nat.zero_add]

end Claims

namespace Claims

open A11y EngineConfig SarifReporter HtmlReporter Popup

/-- C1: for every raw engine result, the `totalTestsRun` statistic of the
normalized report equals the sum of the lengths of the report's four outcome
sequences (violations, passes, incomplete, inapplicable), in both the
part_002 and part_003 normalizers. -/
theorem C1_totalTestsRun_eq_sum_of_sequences (raw : RawEngineResult)
    (ctx : ScanContext) (env : NormEnv) :
    ((AxeRunnerV2.normalizeResults raw ctx env).statistics.totalTestsRun =
      (AxeRunnerV2.normalizeResults raw ctx env).violations.length +
        (AxeRunnerV2.normalizeResults raw ctx env).passes.length +
        (AxeRunnerV2.normalizeResults raw ctx env).incomplete.length +
        (AxeRunnerV2.normalizeResults raw ctx env).inapplicable.length) ∧
    ((AxeRunnerV3.normalizeResults raw ctx env).statistics.totalTestsRun =
      (AxeRunnerV3.normalizeResults raw ctx env).violations.length +
        (AxeRunnerV3.normalizeResults raw ctx env).passes.length +
        (AxeRunnerV3.normalizeResults raw ctx env).incomplete.length +
        (AxeRunnerV3.normalizeResults raw ctx env).inapplicable.length) := by
  constructor <;>
    simp [AxeRunnerV2.normalizeResults, AxeRunnerV3.normalizeResults, jsLen]

/-- C10: in both normalizers, the severity tally counts a violation exactly
when its impact is a non-empty string, so the sum of all tally entries equals
the number of violations carrying an impact; on a raw result whose only
violation has a null impact the tally sums to 0 while violations has length
1, so the sum can be strictly smaller than the number of violations. -/
theorem C10_severity_tally_counts_impacted_violations (raw : RawEngineResult)
    (ctx : ScanContext) (env : NormEnv) :
    (tallySum (AxeRunnerV2.normalizeResults raw ctx env).statistics.severityCounts =
      ((jsList raw.violations).filter (fun v => hasImpact v.impact)).length) ∧
    (tallySum (AxeRunnerV3.normalizeResults raw ctx env).statistics.severityCounts =
      ((jsList raw.violations).filter (fun v => hasImpact v.impact)).length) ∧
    tallySum (AxeRunnerV2.normalizeResults raw1 ctx0 env0).statistics.severityCounts = 0 ∧
    (jsList raw1.violations).length = 1 := by
  refine ⟨?_, ?_, by decide, by decide⟩ <;>
  · show tallySum (severityCountsOf ((jsList raw.violations).map (fun v => v.impact))) = _
    rw [severityCountsOf_sum, List.filter_map, List.length_map]
    rfl

/-- C4 (amended): in the part_002 normalizer, `automatedCoverage` is 0 when
`totalTestsRun` is 0 (the NaN of 0/0 is collapsed by `|| 0`, no division
fault), and otherwise is `Math.round` applied to the IEEE-754 binary64
evaluation of (testsPassed/totalTestsRun)·100 — which can differ from exact
rounding of 100·p/t: 23 passes of 40 total yields 57, not the exact-half-up
58. The all-empty raw result yields coverage 0 and the all-zero severity
tally; the part_003 normalizer instead reports the constant 100. -/
theorem C4_automatedCoverage_formula (raw : RawEngineResult)
    (ctx : ScanContext) (env : NormEnv) :
    ((AxeRunnerV2.normalizeResults raw ctx env).statistics.totalTestsRun = 0 →
      (AxeRunnerV2.normalizeResults raw ctx env).statistics.automatedCoverage = 0) ∧
    ((AxeRunnerV2.normalizeResults raw ctx env).statistics.totalTestsRun ≠ 0 →
      ∀ d2 : F64,
        (flRat (AxeRunnerV2.normalizeResults raw ctx env).statistics.testsPassed
            (AxeRunnerV2.normalizeResults raw ctx env).statistics.totalTestsRun >>=
          flMul100) = some d2 →
        (AxeRunnerV2.normalizeResults raw ctx env).statistics.automatedCoverage =
          mathRoundF64 d2) ∧
    ((AxeRunnerV2.normalizeResults emptyRaw ctx0 env0).statistics.automatedCoverage = 0 ∧
      (AxeRunnerV2.normalizeResults emptyRaw ctx0 env0).statistics.severityCounts =
        severityBuckets0) ∧
    (AxeRunnerV2.normalizeResults raw23of40 ctx0 env0).statistics.automatedCoverage = 57 ∧
    (AxeRunnerV3.normalizeResults raw ctx env).statistics.automatedCoverage = 100 := by
  refine ⟨?_, ?_, ⟨by decide, by decide⟩, by decide, rfl⟩
  · intro h
    have h2 : jsLen raw.violations + jsLen raw.passes + jsLen raw.incomplete +
        jsLen raw.inapplicable = 0 := h
    show jsCoverage (jsLen raw.passes) _ = 0
    rw [jsCoverage, if_pos h2]
  · intro h d2 hbind
    have h2 : jsLen raw.violations + jsLen raw.passes + jsLen raw.incomplete +
        jsLen raw.inapplicable ≠ 0 := h
    rcases Option.bind_eq_some.mp hbind with ⟨d, hd, hd2⟩
    have hd1 : flRat (jsLen raw.passes)
        (jsLen raw.violations + jsLen raw.passes + jsLen raw.incomplete +
          jsLen raw.inapplicable) = some d := hd
    show jsCoverage (jsLen raw.passes) _ = mathRoundF64 d2
    simp [jsCoverage, h2, hd1, hd2]

/-- C4 witness: the hypotheses of the amended coverage theorem discharged at
concrete inputs — the all-empty raw result for the zero case, and the
1-violation 1-pass raw result for the double-evaluation case, where the
double of (1/2)·100 is exactly 50 = 7036874417766400·2^(-47). -/
theorem C4_automatedCoverage_formula_witness :
    (AxeRunnerV2.normalizeResults emptyRaw ctx0 env0).statistics.automatedCoverage = 0 ∧
    (AxeRunnerV2.normalizeResults raw0 ctx0 env0).statistics.automatedCoverage =
      mathRoundF64 { num := 7036874417766400, exp := -47 } :=
  ⟨(C4_automatedCoverage_formula emptyRaw ctx0 env0).1 (by decide),
   (C4_automatedCoverage_formula raw0 ctx0 env0).2.1 (by decide)
     { num := 7036874417766400, exp := -47 } (by decide)⟩

/-- C4 counterexample: the claim fails twice over. The part_003 normalizer
reports `automatedCoverage` 100 even for the all-empty raw result, where the
claim demands 0; and even the part_002 normalizer diverges from the claimed
exact formula round(100·testsPassed/totalTestsRun): at 23 passes of 40 total
the program computes 57 (binary64 gives (23/40)·100 = 57.49999999999999289)
while the exact half-up rounding of 57.5 is 58. -/
theorem C4_automatedCoverage_counterexample :
    ((AxeRunnerV3.normalizeResults emptyRaw ctx0 env0).statistics.automatedCoverage = 100 ∧
      (AxeRunnerV3.normalizeResults emptyRaw ctx0 env0).statistics.totalTestsRun = 0 ∧
      ¬(AxeRunnerV3.normalizeResults emptyRaw ctx0 env0).statistics.automatedCoverage = 0) ∧
    ((AxeRunnerV2.normalizeResults raw23of40 ctx0 env0).statistics.automatedCoverage = 57 ∧
      (200 * (AxeRunnerV2.normalizeResults raw23of40 ctx0 env0).statistics.testsPassed +
          (AxeRunnerV2.normalizeResults raw23of40 ctx0 env0).statistics.totalTestsRun) /
        (2 * (AxeRunnerV2.normalizeResults raw23of40 ctx0 env0).statistics.totalTestsRun) =
        58) :=
  ⟨⟨rfl, rfl, by decide⟩, by decide, by decide⟩

end Claims

namespace Claims

open A11y EngineConfig SarifReporter HtmlReporter Popup

theorem contains_true_iff (l : List String) (a : String) :
    l.contains a = true ↔ a ∈ l := by
  simp

theorem filterV2_spec (rep : AxeRunnerV2.NormalizedReport) (allowed : List String)
    (h : allowed ≠ []) :
    AxeRunnerV2.filterByImpact rep (some allowed) =
      { rep with
        violations := rep.violations.filter
          (fun v => AxeRunnerV2.impactIncluded allowed v.impact)
        passes := rep.passes.filter
          (fun p => AxeRunnerV2.impactIncluded allowed p.impact)
        incomplete := rep.incomplete.filter
          (fun i => AxeRunnerV2.impactIncluded allowed i.impact)
        statistics :=
          { rep.statistics with
            issuesFound := (rep.violations.filter
              (fun v => AxeRunnerV2.impactIncluded allowed v.impact)).length
            testsPassed := (rep.passes.filter
              (fun p => AxeRunnerV2.impactIncluded allowed p.impact)).length
            manualReviews := (rep.incomplete.filter
              (fun i => AxeRunnerV2.impactIncluded allowed i.impact)).length
            severityCounts := severityCountsOf ((rep.violations.filter
              (fun v => AxeRunnerV2.impactIncluded allowed v.impact)).map
                (fun v => v.impact)) } } := by
  have hne : ¬allowed.isEmpty = true := by
    simpa [List.isEmpty_iff] using h
  simp only [AxeRunnerV2.filterByImpact]
  rw [if_neg hne]

theorem filterV3_spec (rep : AxeRunnerV3.NormalizedReport) (allowed : List String)
    (h : allowed ≠ []) :
    AxeRunnerV3.filterByImpact rep (some allowed) =
      { rep with
        violations := rep.violations.filter
          (fun v => AxeRunnerV2.impactIncluded allowed v.impact)
        passes := rep.passes.filter
          (fun p => AxeRunnerV2.impactIncluded allowed p.impact)
        incomplete := rep.incomplete.filter
          (fun i => AxeRunnerV2.impactIncluded allowed i.impact)
        statistics :=
          { rep.statistics with
            issuesFound := (rep.violations.filter
              (fun v => AxeRunnerV2.impactIncluded allowed v.impact)).length
            testsPassed := (rep.passes.filter
              (fun p => AxeRunnerV2.impactIncluded allowed p.impact)).length
            manualReviews := (rep.incomplete.filter
              (fun i => AxeRunnerV2.impactIncluded allowed i.impact)).length
            severityCounts := severityCountsOf ((rep.violations.filter
              (fun v => AxeRunnerV2.impactIncluded allowed v.impact)).map
                (fun v => v.impact)) } } := by
  have hne : ¬allowed.isEmpty = true := by
    simpa [List.isEmpty_iff] using h
  simp only [AxeRunnerV3.filterByImpact]
  rw [if_neg hne]

/-- C2 (amended): for every normalized report and non-empty impact filter,
`filterByImpact` (part_002 and part_003) recomputes `issuesFound`,
`testsPassed`, `manualReviews` and the severity tally from the filtered
violations/passes/incomplete sequences and leaves `inapplicable` unfiltered,
but the pre-filter `totalTestsRun` and `automatedCoverage` values (and
`standardsCovered`, respectively `wcagCriteriaTested`/`standardsTested`) are
reused, not recomputed. -/
theorem C2_filter_recomputes_counts_but_reuses_totals
    (rep : AxeRunnerV2.NormalizedReport) (rep3 : AxeRunnerV3.NormalizedReport)
    (allowed : List String) (h : allowed ≠ []) :
    ((AxeRunnerV2.filterByImpact rep (some allowed)).statistics =
      { totalTestsRun := rep.statistics.totalTestsRun
        testsPassed := (AxeRunnerV2.filterByImpact rep (some allowed)).passes.length
        issuesFound := (AxeRunnerV2.filterByImpact rep (some allowed)).violations.length
        manualReviews := (AxeRunnerV2.filterByImpact rep (some allowed)).incomplete.length
        severityCounts := severityCountsOf
          ((AxeRunnerV2.filterByImpact rep (some allowed)).violations.map
            (fun v => v.impact))
        automatedCoverage := rep.statistics.automatedCoverage
        standardsCovered := rep.statistics.standardsCovered }) ∧
    ((AxeRunnerV2.filterByImpact rep (some allowed)).violations =
      rep.violations.filter (fun v => AxeRunnerV2.impactIncluded allowed v.impact)) ∧
    ((AxeRunnerV2.filterByImpact rep (some allowed)).passes =
      rep.passes.filter (fun p => AxeRunnerV2.impactIncluded allowed p.impact)) ∧
    ((AxeRunnerV2.filterByImpact rep (some allowed)).incomplete =
      rep.incomplete.filter (fun i => AxeRunnerV2.impactIncluded allowed i.impact)) ∧
    ((AxeRunnerV2.filterByImpact rep (some allowed)).inapplicable =
      rep.inapplicable) ∧
    ((AxeRunnerV3.filterByImpact rep3 (some allowed)).statistics =
      { totalTestsRun := rep3.statistics.totalTestsRun
        testsPassed := (AxeRunnerV3.filterByImpact rep3 (some allowed)).passes.length
        issuesFound := (AxeRunnerV3.filterByImpact rep3 (some allowed)).violations.length
        manualReviews := (AxeRunnerV3.filterByImpact rep3 (some allowed)).incomplete.length
        severityCounts := severityCountsOf
          ((AxeRunnerV3.filterByImpact rep3 (some allowed)).violations.map
            (fun v => v.impact))
        automatedCoverage := rep3.statistics.automatedCoverage
        wcagCriteriaTested := rep3.statistics.wcagCriteriaTested
        standardsTested := rep3.statistics.standardsTested }) ∧
    ((AxeRunnerV3.filterByImpact rep3 (some allowed)).inapplicable =
      rep3.inapplicable) := by
  rw [filterV2_spec rep allowed h, filterV3_spec rep3 allowed h]
  exact ⟨rfl, rfl, rfl, rfl, rfl, rfl, rfl⟩

/-- C2 witness: the amended theorem applied to the report normalized from a
raw result with one serious violation and one impact-less pass, filtered to
serious only. -/
theorem C2_filter_witness :
    (AxeRunnerV2.filterByImpact (AxeRunnerV2.normalizeResults raw0 ctx0 env0)
      (some ["serious"])).statistics.totalTestsRun =
      (AxeRunnerV2.normalizeResults raw0 ctx0 env0).statistics.totalTestsRun ∧
    (AxeRunnerV2.filterByImpact (AxeRunnerV2.normalizeResults raw0 ctx0 env0)
      (some ["serious"])).statistics.automatedCoverage =
      (AxeRunnerV2.normalizeResults raw0 ctx0 env0).statistics.automatedCoverage :=
  ⟨by rw [(C2_filter_recomputes_counts_but_reuses_totals
      (AxeRunnerV2.normalizeResults raw0 ctx0 env0)
      (AxeRunnerV3.normalizeResults raw0 ctx0 env0) ["serious"] (by decide)).1],
   by rw [(C2_filter_recomputes_counts_but_reuses_totals
      (AxeRunnerV2.normalizeResults raw0 ctx0 env0)
      (AxeRunnerV3.normalizeResults raw0 ctx0 env0) ["serious"] (by decide)).1]⟩

/-- C2 counterexample: after filtering the normalized report of one serious
violation plus one impact-less pass down to serious only, the filtered
sequences sum to 1 and would recompute to coverage 0, yet the statistics
block still carries the pre-filter `totalTestsRun` 2 and
`automatedCoverage` 50. -/
theorem C2_filter_counterexample :
    (AxeRunnerV2.filterByImpact (AxeRunnerV2.normalizeResults raw0 ctx0 env0)
      (some ["serious"])).statistics.totalTestsRun = 2 ∧
    ((AxeRunnerV2.filterByImpact (AxeRunnerV2.normalizeResults raw0 ctx0 env0)
        (some ["serious"])).violations.length +
      (AxeRunnerV2.filterByImpact (AxeRunnerV2.normalizeResults raw0 ctx0 env0)
        (some ["serious"])).passes.length +
      (AxeRunnerV2.filterByImpact (AxeRunnerV2.normalizeResults raw0 ctx0 env0)
        (some ["serious"])).incomplete.length +
      (AxeRunnerV2.filterByImpact (AxeRunnerV2.normalizeResults raw0 ctx0 env0)
        (some ["serious"])).inapplicable.length = 1) ∧
    (AxeRunnerV2.filterByImpact (AxeRunnerV2.normalizeResults raw0 ctx0 env0)
      (some ["serious"])).statistics.automatedCoverage = 50 ∧
    jsCoverage
      (AxeRunnerV2.filterByImpact (AxeRunnerV2.normalizeResults raw0 ctx0 env0)
        (some ["serious"])).passes.length
      ((AxeRunnerV2.filterByImpact (AxeRunnerV2.normalizeResults raw0 ctx0 env0)
          (some ["serious"])).violations.length +
        (AxeRunnerV2.filterByImpact (AxeRunnerV2.normalizeResults raw0 ctx0 env0)
          (some ["serious"])).passes.length +
        (AxeRunnerV2.filterByImpact (AxeRunnerV2.normalizeResults raw0 ctx0 env0)
          (some ["serious"])).incomplete.length +
        (AxeRunnerV2.filterByImpact (AxeRunnerV2.normalizeResults raw0 ctx0 env0)
          (some ["serious"])).inapplicable.length) = 0 := by
  refine ⟨by decide, by decide, by decide, by decide⟩

end Claims

namespace Claims

open A11y EngineConfig SarifReporter HtmlReporter Popup

/-- C3 (amended): the enhanced engine invokers of part_002 and part_003
always request all four outcome categories in `resultTypes`, for every
caller configuration; the earlier invoker of part_001 requests only
`violations`. -/
theorem C3_resultTypes_by_version (c : ScanConfig) (allTags : List String) :
    (buildAxeConfigV2 c allTags).resultTypes =
      ["violations", "passes", "incomplete", "inapplicable"] ∧
    (buildAxeConfigV3 c).resultTypes =
      ["violations", "passes", "incomplete", "inapplicable"] ∧
    (buildAxeConfigV1 c).resultTypes = ["violations"] :=
  ⟨rfl, rfl, rfl⟩

/-- C3 counterexample: the part_001 invoker, cited by the claim, requests
only `violations` regardless of the configuration, not all four outcome
categories. -/
theorem C3_resultTypes_counterexample :
    (buildAxeConfigV1 cfgEmpty).resultTypes = ["violations"] ∧
    (buildAxeConfigV1 cfgEmpty).resultTypes ≠
      ["violations", "passes", "incomplete", "inapplicable"] :=
  ⟨rfl, by decide⟩

/-- C6 (amended): with an empty requested tag list both enhanced invokers
fall back to a default rule set; with a non-empty list the part_002 invoker
restricts the engine call to the intersection with the tags the engine
recognizes and reports the dropped remainder only as a diagnostic (never a
failure) — if no requested tag is recognized the engine is invoked with an
empty tag list, not the defaults — while the part_003 invoker passes the
requested list through unfiltered. -/
theorem C6_tag_selection_by_version (c : ScanConfig) (allTags : List String) :
    (c.tags = none →
      (buildAxeConfigV2 c allTags).runOnly.values = defaultTagsV2 allTags ∧
      (buildAxeConfigV3 c).runOnly.values = defaultTagsV3) ∧
    (∀ ts, c.tags = some ts → ts = [] →
      (buildAxeConfigV2 c allTags).runOnly.values = defaultTagsV2 allTags ∧
      (buildAxeConfigV3 c).runOnly.values = defaultTagsV3) ∧
    (∀ ts, c.tags = some ts → ts ≠ [] →
      (buildAxeConfigV2 c allTags).runOnly.values =
        ts.filter (fun t => allTags.contains t) ∧
      (runAxeV2 c allTags).2 = ts.filter (fun t => !allTags.contains t) ∧
      (buildAxeConfigV3 c).runOnly.values = ts) := by
  refine ⟨?_, ?_, ?_⟩
  · intro hn
    constructor <;> simp [buildAxeConfigV2, buildAxeConfigV3, hn]
  · intro ts hts hnil
    subst hnil
    constructor <;> simp [buildAxeConfigV2, buildAxeConfigV3, hts]
  · intro ts hts hne
    have hlen : 0 < ts.length := List.length_pos.mpr hne
    refine ⟨?_, ?_, ?_⟩
    · simp [buildAxeConfigV2, hts, hlen]
    · have hvals : (buildAxeConfigV2 c allTags).runOnly.values =
        ts.filter (fun t => allTags.contains t) := by
        simp [buildAxeConfigV2, hts, hlen]
      show (match c.tags with
        | some ts => ts.filter
            (fun tag => !(buildAxeConfigV2 c allTags).runOnly.values.contains tag)
        | none => []) = _
      rw [hts]
      rw [hvals]
      apply List.filter_congr
      intro t htmem
      by_cases hm : t ∈ allTags
      · have hin : t ∈ ts.filter (fun x => allTags.contains x) :=
          List.mem_filter.mpr ⟨htmem, (contains_true_iff _ _).mpr hm⟩
        have h1 : (ts.filter (fun x => allTags.contains x)).contains t = true :=
          (contains_true_iff _ _).mpr hin
        have h2 : allTags.contains t = true := (contains_true_iff _ _).mpr hm
        rw [h1, h2]
      · have hin : t ∉ ts.filter (fun x => allTags.contains x) := by
          intro hmem
          exact hm ((contains_true_iff _ _).mp (List.mem_filter.mp hmem).2)
        have h1 : (ts.filter (fun x => allTags.contains x)).contains t = false := by
          rcases Bool.eq_false_or_eq_true
            ((ts.filter (fun x => allTags.contains x)).contains t) with hb | hb
          · exact absurd ((contains_true_iff _ _).mp hb) hin
          · exact hb
        have h2 : allTags.contains t = false := by
          rcases Bool.eq_false_or_eq_true (allTags.contains t) with hb | hb
          · exact absurd ((contains_true_iff _ _).mp hb) hm
          · exact hb
        rw [h1, h2]
    · simp [buildAxeConfigV3, hts, hlen]

/-- C6 witness: the amended theorem applied to the unrecognized-tag scenario
(requested `wcag99aa`, recognized tags `wcag2a`/`wcag2aa`): part_002 keeps
the empty intersection, reports `wcag99aa` as the diagnostic, and part_003
passes `wcag99aa` through. -/
theorem C6_tag_selection_witness :
    (buildAxeConfigV2 cfgUnknownTag allTags0).runOnly.values =
      ["wcag99aa"].filter (fun t => allTags0.contains t) ∧
    (runAxeV2 cfgUnknownTag allTags0).2 =
      ["wcag99aa"].filter (fun t => !allTags0.contains t) ∧
    (buildAxeConfigV3 cfgUnknownTag).runOnly.values = ["wcag99aa"] :=
  (C6_tag_selection_by_version cfgUnknownTag allTags0).2.2 ["wcag99aa"] rfl
    (by decide)

/-- C6 counterexample: when the only requested tag `wcag99aa` is not
recognized, the part_002 invoker calls the engine with an empty tag list
rather than the (non-empty) defaults the claim promises, and the part_003
invoker does not drop the unrecognized tag at all. -/
theorem C6_tag_selection_counterexample :
    (buildAxeConfigV2 cfgUnknownTag allTags0).runOnly.values = [] ∧
    defaultTagsV2 allTags0 = ["wcag2a", "wcag2aa"] ∧
    (buildAxeConfigV2 cfgUnknownTag allTags0).runOnly.values ≠ defaultTagsV2 allTags0 ∧
    (buildAxeConfigV3 cfgUnknownTag).runOnly.values = ["wcag99aa"] := by
  refine ⟨by decide, by decide, by decide, by decide⟩

end Claims

namespace Claims

open A11y EngineConfig SarifReporter HtmlReporter Popup

theorem pollLoop_none (polls : Nat → PollView) :
    ∀ fuel i, (∀ j, j < i + fuel → polls j = { result := none, error := none }) →
      pollLoop polls i fuel = .ok none := by
  intro fuel
  induction fuel with
  | zero => intro i _; rfl
  | succ n ih =>
    intro i h
    have hi : polls i = { result := none, error := none } := h i (by omega)
    simp only [pollLoop, hi, errTruthy]
    exact ih (i + 1) (fun j hj => h j (by omega))

/-- C7 (amended): a call to `runScan` while a scan is already in flight
returns immediately with no error and no state change — the code has no
`ScanAlreadyInProgress` failure, the reentrant call is silently skipped —
and for a scan that does start, the finally step clears the in-flight flag
on every outcome, so a later scan is never permanently blocked. -/
theorem C7_reentrant_scan_skipped (st : ScanState) (env : ScanEnv) :
    (st.isScanning = true → runScan st env = (st, ScanOutcome.skipped)) ∧
    (st.isScanning = false → (runScan st env).1.isScanning = false) := by
  constructor
  · intro h
    simp [runScan, h]
  · intro h
    rcases hsb : scanBody st.resultsByTab env with e | ⟨store2, r⟩ <;>
      simp [runScan, h, hsb]

/-- C7 witness: a busy state is returned untouched with outcome `skipped`,
and a scan that runs to completion ends with the in-flight flag cleared. -/
theorem C7_reentrant_scan_witness :
    runScan stBusy envSilent = (stBusy, ScanOutcome.skipped) ∧
    (runScan stIdle envQuick).1.isScanning = false :=
  ⟨(C7_reentrant_scan_skipped stBusy envSilent).1 rfl,
   (C7_reentrant_scan_skipped stIdle envQuick).2 rfl⟩

/-- C7 counterexample: the reentrant call does not fail with
`ScanAlreadyInProgress` as the claim states — it is skipped silently with no
error outcome at all (and no state change). -/
theorem C7_reentrant_scan_counterexample :
    (runScan stBusy envSilent).2 = ScanOutcome.skipped ∧
    (runScan stBusy envSilent).1 = stBusy ∧
    (runScan stBusy envSilent).2 ≠ ScanOutcome.failure "ScanAlreadyInProgress" :=
  ⟨rfl, rfl, by decide⟩

/-- C8: when every one of the 50 polling attempts sees neither a result nor
an error, `runScan` fails with the timeout error and the result store is
byte-for-byte unchanged; moreover, for every state and environment, the
store changes only when the outcome is a success, i.e. only after the full
pipeline completed and the normalized report was saved. -/
theorem C8_timeout_no_partial_write (st : ScanState) (env : ScanEnv)
    (tab : TabInfo) (h1 : st.isScanning = false) (h2 : env.activeTab = some tab)
    (h3 : env.pageAccessible = true) (h4 : env.injectOk = true)
    (h5 : ∀ j, j < 50 → env.polls j = { result := none, error := none }) :
    runScan st env =
      ({ isScanning := false, resultsByTab := st.resultsByTab },
        ScanOutcome.failure "Accessibility scan timed out.") ∧
    (∀ (st2 : ScanState) (env2 : ScanEnv),
      (runScan st2 env2).1.resultsByTab ≠ st2.resultsByTab →
        ∃ r, (runScan st2 env2).2 = ScanOutcome.success r) := by
  constructor
  · have hpoll : pollLoop env.polls 0 50 = .ok none :=
      pollLoop_none env.polls 50 0 (fun j hj => h5 j (by omega))
    have hsb : scanBody st.resultsByTab env =
        .error "Accessibility scan timed out." := by
      simp [scanBody, h2, h3, h4, hpoll]
    simp [runScan, h1, hsb]
  · intro st2 env2 hne
    by_cases hs : st2.isScanning = true
    · exact absurd (by simp [runScan, hs]) hne
    · rcases hsb : scanBody st2.resultsByTab env2 with e | ⟨store2, r⟩
      · exact absurd (by simp [runScan, hs, hsb]) hne
      · exact ⟨r, by simp [runScan, hs, hsb]⟩

/-- C8 witness: the timeout theorem applied to an idle state holding one
stored report and an environment whose polls never produce anything. -/
theorem C8_timeout_witness :
    runScan stIdle envSilent =
      ({ isScanning := false, resultsByTab := stIdle.resultsByTab },
        ScanOutcome.failure "Accessibility scan timed out.") :=
  (C8_timeout_no_partial_write stIdle envSilent
    { id := 1, url := "https://example.com" } rfl rfl rfl rfl
    (fun j _ => rfl)).1

end Claims

namespace Claims

open A11y EngineConfig SarifReporter HtmlReporter Popup

theorem sarifResultsList_length (vs : List AxeRule) (url : Option String) :
    (sarifResultsList vs url).length = (vs.map (fun v => v.nodes.length)).sum := by
  induction vs with
  | nil => rfl
  | cons v rest ih => simp [sarifResultsList, ih]

theorem mem_sarifResultsList {vs : List AxeRule} {v : AxeRule} (hv : v ∈ vs)
    {n : AxeNode} (hn : n ∈ v.nodes) (url : Option String) :
    buildResult v n url ∈ sarifResultsList vs url := by
  induction vs with
  | nil => cases hv
  | cons w rest ih =>
    rcases List.mem_cons.mp hv with h | h
    · subst h
      exact List.mem_append_left _ (List.mem_map_of_mem _ hn)
    · exact List.mem_append_right _ (ih h)

theorem lookupLevel_eq_spec (impact : Option String) :
    lookupLevel impact = specLevelMap impact := by
  rcases impact with _ | s
  · rfl
  · rcases eq_or_ne s "critical" with h1 | h1
    · subst h1; rfl
    rcases eq_or_ne s "serious" with h2 | h2
    · subst h2; rfl
    rcases eq_or_ne s "moderate" with h3 | h3
    · subst h3; rfl
    rcases eq_or_ne s "minor" with h4 | h4
    · subst h4; rfl
    have g1 : ("critical" == s) = false := by
      simp [beq_eq_false_iff_ne]
      exact fun he => h1 he.symm
    have g2 : ("serious" == s) = false := by
      simp [beq_eq_false_iff_ne]
      exact fun he => h2 he.symm
    have g3 : ("moderate" == s) = false := by
      simp [beq_eq_false_iff_ne]
      exact fun he => h3 he.symm
    have g4 : ("minor" == s) = false := by
      simp [beq_eq_false_iff_ne]
      exact fun he => h4 he.symm
    simp [lookupLevel, impactToLevel, specLevelMap, List.find?, g1, g2, g3, g4,
      h1, h2, h3, h4]

theorem upsertRule_keys (acc : List SarifRule) (v : AxeRule) :
    (upsertRule acc v).map (fun r => r.id) =
      if v.id ∈ acc.map (fun r => r.id) then acc.map (fun r => r.id)
      else acc.map (fun r => r.id) ++ [v.id] := by
  by_cases hany : acc.any (fun r => r.id == v.id) = true
  · have hmem : v.id ∈ acc.map (fun r => r.id) := by
      rcases List.any_eq_true.mp hany with ⟨r, hr, he⟩
      exact List.mem_map.mpr ⟨r, hr, by simpa using he⟩
    rw [upsertRule, if_pos hany, if_pos hmem, List.map_map]
    apply List.map_congr_left
    intro r _
    by_cases hr : r.id = v.id <;> simp [hr, buildRule]
  · have hmem : v.id ∉ acc.map (fun r => r.id) := by
      intro hm
      rcases List.mem_map.mp hm with ⟨r, hr, he⟩
      exact hany (List.any_eq_true.mpr ⟨r, hr, by simp [he]⟩)
    rw [upsertRule, if_neg hany, if_neg hmem, List.map_append]
    simp [buildRule]

theorem sarifRules_keys (vs : List AxeRule) :
    ∀ acc : List SarifRule, (acc.map (fun r => r.id)).Nodup →
      ((vs.foldl upsertRule acc).map (fun r => r.id)).Nodup ∧
      ∀ i, (i ∈ (vs.foldl upsertRule acc).map (fun r => r.id) ↔
        i ∈ acc.map (fun r => r.id) ∨ i ∈ vs.map (fun v => v.id)) := by
  induction vs with
  | nil =>
    intro acc h
    exact ⟨h, fun i => by simp⟩
  | cons v rest ih =>
    intro acc h
    have hk := upsertRule_keys acc v
    have hnd : ((upsertRule acc v).map (fun r => r.id)).Nodup := by
      rw [hk]
      by_cases hm : v.id ∈ acc.map (fun r => r.id)
      · rw [if_pos hm]; exact h
      · rw [if_neg hm]
        simp [List.nodup_append, h, hm]
    rcases ih (upsertRule acc v) hnd with ⟨hnd2, hmem2⟩
    refine ⟨by simpa using hnd2, ?_⟩
    intro i
    have hstep : ((v :: rest).foldl upsertRule acc) =
        rest.foldl upsertRule (upsertRule acc v) := rfl
    rw [hstep, hmem2 i, hk]
    by_cases hm : v.id ∈ acc.map (fun r => r.id)
    · rw [if_pos hm]
      simp only [List.map_cons, List.mem_cons]
      constructor
      · rintro (ha | hb)
        · exact Or.inl ha
        · exact Or.inr (Or.inr hb)
      · rintro (ha | hb | hc)
        · exact Or.inl ha
        · exact Or.inl (hb ▸ hm)
        · exact Or.inr hc
    · rw [if_neg hm]
      simp only [List.map_cons, List.mem_cons, List.mem_append,
        List.mem_singleton]
      tauto

/-- C5: the SARIF export produces one `results` entry per (violation,
affected-node) pair — the results list has one entry per node of each
violation and contains the entry built for every such pair — each entry's
level follows the critical/serious to error, moderate to warning, minor to
note, anything-else to warning mapping, and `tool.driver.rules` has exactly
one entry per distinct violation identifier; in particular one critical
violation with two affected nodes yields exactly two results entries, both
with level `error`. -/
theorem C5_sarif_results_and_rules (inp : ReporterInput) :
    ((writeSarif inp).results.length =
      ((jsList inp.violations).map (fun v => v.nodes.length)).sum) ∧
    (∀ v ∈ jsList inp.violations, ∀ n ∈ v.nodes,
      buildResult v n inp.url ∈ (writeSarif inp).results) ∧
    (∀ (v : AxeRule) (n : AxeNode) (u : Option String),
      (buildResult v n u).level = specLevelMap v.impact) ∧
    ((writeSarif inp).rules.map (fun r => r.id)).Nodup ∧
    (∀ i, i ∈ (writeSarif inp).rules.map (fun r => r.id) ↔
      i ∈ (jsList inp.violations).map (fun v => v.id)) ∧
    (writeSarif sarifScenario).results.length = 2 ∧
    (writeSarif sarifScenario).results.all (fun r => r.level == "error") = true := by
  refine ⟨sarifResultsList_length _ _, ?_, ?_, ?_, ?_, by decide, by decide⟩
  · intro v hv n hn
    exact mem_sarifResultsList hv hn _
  · intro v n u
    exact lookupLevel_eq_spec v.impact
  · exact (sarifRules_keys (jsList inp.violations) [] (by simp)).1
  · intro i
    have h := (sarifRules_keys (jsList inp.violations) [] (by simp)).2 i
    simpa using h

/-- C5 witness: the per-pair membership applied to the critical violation of
the scenario and its first affected node. -/
theorem C5_sarif_witness :
    buildResult vCritical2 nodeA (some "https://example.com") ∈
      (writeSarif sarifScenario).results :=
  (C5_sarif_results_and_rules sarifScenario).2.1 vCritical2 (by decide) nodeA
    (by decide)

end Claims

namespace Claims

open A11y EngineConfig SarifReporter HtmlReporter Popup

theorem foldl_append_data (l : List String) :
    ∀ acc : String, (l.foldl (fun r s => r ++ s) acc).data =
      acc.data ++ (l.map String.data).flatten := by
  induction l with
  | nil => intro acc; simp
  | cons s rest ih =>
    intro acc
    simp [List.foldl_cons, ih, String.data_append]

theorem join_data (l : List String) :
    (String.join l).data = (l.map String.data).flatten := by
  have h := foldl_append_data l ""
  simpa [String.join] using h

theorem infix_right {α : Type} {t b : List α} (a : List α) (h : t <:+: b) :
    t <:+: a ++ b :=
  h.trans (List.suffix_append a b).isInfix

theorem renderNodeHtml_contains_escaped_html (n : AxeNode) :
    (escapeHtml n.html).data <:+: (renderNodeHtml n).data := by
  simp only [renderNodeHtml, String.data_append, List.append_assoc]
  repeat first
  | exact (List.prefix_append _ _).isInfix
  | apply infix_right

theorem renderNodeHtml_contains_raw_failureSummary (n : AxeNode) :
    (jsOrEmpty n.failureSummary).data <:+: (renderNodeHtml n).data := by
  simp only [renderNodeHtml, String.data_append, List.append_assoc]
  repeat first
  | exact (List.prefix_append _ _).isInfix
  | apply infix_right

theorem join_block_sub {v : AxeRule} {n : AxeNode} (hn : n ∈ v.nodes) :
    (renderNodeHtml n).data <:+: (String.join (v.nodes.map renderNodeHtml)).data := by
  rw [join_data]
  exact List.infix_of_mem_flatten
    (List.mem_map_of_mem String.data (List.mem_map_of_mem renderNodeHtml hn))

/-- C9 (amended): in part_000's HTML renderer, only the serialized markup
snippet of each node is HTML-escaped before interpolation; the rule help
text, the description, the help URL and each node's failure summary are
interpolated verbatim, so any markup they contain reaches the output
document unescaped. (The popup's `exportHTMLReport` in service-worker.js
escapes these fields; the claim fails on the part_000 renderer it cites.) -/
theorem C9_renderViolation_escapes_only_markup (v : AxeRule) :
    (v.help.data <:+: (renderViolation v).data) ∧
    ((jsOrEmpty v.description).data <:+: (renderViolation v).data) ∧
    (v.helpUrl.data <:+: (renderViolation v).data) ∧
    (∀ n ∈ v.nodes, (escapeHtml n.html).data <:+: (renderViolation v).data) ∧
    (∀ n ∈ v.nodes,
      (jsOrEmpty n.failureSummary).data <:+: (renderViolation v).data) := by
  refine ⟨?_, ?_, ?_, ?_, ?_⟩
  · simp only [renderViolation, String.data_append, List.append_assoc]
    repeat first
    | exact (List.prefix_append _ _).isInfix
    | apply infix_right
  · simp only [renderViolation, String.data_append, List.append_assoc]
    repeat first
    | exact (List.prefix_append _ _).isInfix
    | apply infix_right
  · simp only [renderViolation, String.data_append, List.append_assoc]
    repeat first
    | exact (List.prefix_append _ _).isInfix
    | apply infix_right
  · intro n hn
    have h1 := (renderNodeHtml_contains_escaped_html n).trans (join_block_sub hn)
    refine h1.trans ?_
    simp only [renderViolation, String.data_append, List.append_assoc]
    repeat first
    | exact (List.prefix_append _ _).isInfix
    | apply infix_right
  · intro n hn
    have h1 :=
      (renderNodeHtml_contains_raw_failureSummary n).trans (join_block_sub hn)
    refine h1.trans ?_
    simp only [renderViolation, String.data_append, List.append_assoc]
    repeat first
    | exact (List.prefix_append _ _).isInfix
    | apply infix_right

/-- C9 witness: the markup snippet of a concrete node appears escaped in the
rendered output of a concrete violation. -/
theorem C9_renderViolation_witness :
    (escapeHtml nodeA.html).data <:+: (renderViolation vCritical2).data :=
  (C9_renderViolation_escapes_only_markup vCritical2).2.2.2.1 nodeA (by decide)

/-- C9 counterexample: a violation whose help text is a script tag renders
with the raw `<script>` markup in the output — the code's renderer differs
from the spec-demanded renderer that escapes every untrusted field, and the
help text is demonstrably not escaped (its escaped form differs). -/
theorem C9_renderViolation_counterexample :
    renderViolation vScriptHelp ≠ renderViolationSpec vScriptHelp ∧
    ("<script>alert(1)</script>".data <:+: (renderViolation vScriptHelp).data) ∧
    escapeHtml "<script>alert(1)</script>" ≠ "<script>alert(1)</script>" := by
  refine ⟨by decide, ?_, by decide⟩
  show (vScriptHelp.help).data <:+: (renderViolation vScriptHelp).data
  simp only [renderViolation, String.data_append, List.append_assoc]
  repeat first
  | exact (List.prefix_append _ _).isInfix
  | apply infix_right

end Claims
